import Mathlib

/-!
Verification of the fetch/cache/resolve core of the football-stats scripts.

The development embeds, as executable Lean definitions:

* `RateLimitedRequester.get` (fbref_collector.py, lines 104-153) as `get`,
  over an explicit requester state (`ReqState`) and an environment `Oracle`
  supplying the random delays, request durations and server responses.
  Clock values are naturals; a fuel argument bounds the 429-retry
  recursion, with `GetResult.fuelOut` marking a computation that has not
  produced any outcome within the given number of attempts.
* `FBrefTeamMapper.search_team` / `find_team_in_league`
  (fbref_collector.py, lines 188-278) as `search_team` /
  `find_team_in_league` over a `MapperState`, with HTML parsing abstracted
  by a `ParseEnv` (BeautifulSoup and the squad-id regex are external).
* the row-update loop and the final write-back of `update_csv`
  (update_stats.py, lines 202-267), `lookup_team_id`,
  `fetch_last_matches` and the result-to-points mapping of
  `get_team_matches`.
-/

/-- Python's substring test `needle in hay` on lists of characters. -/
def charsHavePre : List Char → List Char → Bool
  | [], _ => true
  | _ :: _, [] => false
  | a :: as, b :: bs => a == b && charsHavePre as bs

/-- Contiguous-substring test on character lists (Python `in` on `str`). -/
def charsContain (needle : List Char) : List Char → Bool
  | [] => needle.isEmpty
  | b :: bs => charsHavePre needle (b :: bs) || charsContain needle bs

/-- Python `needle in hay` for strings. -/
def containsStr (needle hay : String) : Bool :=
  charsContain needle.data hay.data

/-- Python `str.lower()` (ASCII case folding suffices for this code). -/
def lowerStr (s : String) : String :=
  ⟨s.data.map Char.toLower⟩

/-- Association-list lookup modelling Python `dict` access. -/
def assocLookup {α : Type} : List (String × α) → String → Option α
  | [], _ => none
  | (k, v) :: rest, key => if k = key then some v else assocLookup rest key

/- ### The rate-limited, cached requester (`RateLimitedRequester`) -/

/-- Constructor arguments of `RateLimitedRequester` that the claims need:
the response-cache TTL (`cache_ttl`, seconds). -/
structure ReqConfig where
  ttl : Nat
deriving Repr, DecidableEq

/-- Environment for one requester run: the `k`-th outbound request draws
`delay k` for `random.uniform(min_delay, max_delay)`, takes `reqTime k`
seconds of wall time, and the server answers `server k url` =
(status code, body). -/
structure Oracle where
  delay : Nat → Nat
  reqTime : Nat → Nat
  server : Nat → String → Nat × String

/-- Requester state: the on-disk response cache (entries `(url, body,
mtime)`, most recent first, mirroring file overwrite), the
`last_request_time` attribute (the RequestBudget), the wall clock, and a
ghost counter of outbound network requests. -/
structure ReqState where
  cache : List (String × String × Nat)
  lastRequestTime : Nat
  clock : Nat
  nCalls : Nat
deriving Repr, DecidableEq

/-- Look a URL up in the response cache (the cache file for the URL's
hash; the md5 key is injective on the URLs in play, so the cache is keyed
by the URL itself). -/
def cacheLookup : List (String × String × Nat) → String → Option (String × Nat)
  | [], _ => none
  | (u, b, t) :: rest, url => if u = url then some (b, t) else cacheLookup rest url

/-- Lines 118-123 of fbref_collector.py: the body of a cache entry that
exists and whose age is below the TTL, when `use_cache` is set. -/
def freshHit (cfg : ReqConfig) (s : ReqState) (url : String) (useCache : Bool) :
    Option String :=
  if useCache then
    match cacheLookup s.cache url with
    | some (body, mtime) => if s.clock - mtime < cfg.ttl then some body else none
    | none => none
  else none

/-- Result of `RateLimitedRequester.get`: a body, a raised
`requests.HTTPError` (carrying the requester state, whose attributes
survive the exception), or exhaustion of the retry fuel — the embedding's
marker for a computation that is still recursing on 429 responses. -/
inductive GetResult
  | ok (body : String) (s : ReqState)
  | httpError (status : Nat) (s : ReqState)
  | fuelOut
deriving Repr, DecidableEq

/-- `RateLimitedRequester.get` (fbref_collector.py, lines 104-153).
Cache probe; otherwise sleep out the rate-limit delay, issue the request,
set `last_request_time`, retry after 60s on a 429, raise on 4xx/5xx, and
cache and return the body otherwise. -/
def RateLimitedRequester.get (o : Oracle) (cfg : ReqConfig) :
    Nat → ReqState → String → Bool → GetResult
  | 0, _, _, _ => .fuelOut
  | fuel + 1, s, url, useCache =>
    match freshHit cfg s url useCache with
    | some body => .ok body s
    | none =>
      let dly := o.delay s.nCalls
      let elapsed := s.clock - s.lastRequestTime
      let clock1 := if elapsed < dly then s.clock + (dly - elapsed) else s.clock
      let status := (o.server s.nCalls url).1
      let body := (o.server s.nCalls url).2
      let clock2 := clock1 + o.reqTime s.nCalls
      if status = 429 then
        RateLimitedRequester.get o cfg fuel ⟨s.cache, clock2, clock2 + 60, s.nCalls + 1⟩ url useCache
      else if 400 ≤ status ∧ status < 600 then
        .httpError status ⟨s.cache, clock2, clock2, s.nCalls + 1⟩
      else
        .ok body ⟨(url, body, clock2) :: s.cache, clock2, clock2, s.nCalls + 1⟩

/-- External time passing between two calls into the requester. -/
def advance (s : ReqState) (d : Nat) : ReqState :=
  { s with clock := s.clock + d }

example :
    RateLimitedRequester.get ⟨fun _ => 0, fun _ => 0, fun _ _ => (200, "B")⟩ ⟨100⟩ 1 ⟨[], 0, 0, 0⟩ "u" true
      = .ok "B" ⟨[("u", "B", 0)], 0, 0, 1⟩ := by decide

example :
    RateLimitedRequester.get ⟨fun _ => 0, fun _ => 0, fun _ _ => (429, "")⟩ ⟨100⟩ 3 ⟨[], 0, 0, 0⟩ "u" true
      = .fuelOut := by decide

/- ### The team-name resolver (`FBrefTeamMapper`) -/

/-- A resolved team identity (the dicts built at fbref_collector.py lines
219-223 and 268-272). -/
structure TeamInfo where
  id : String
  name : String
  url : String
deriving Repr, DecidableEq

/-- An `<a>` element: its text and its `href`. -/
structure Anchor where
  text : String
  href : String
deriving Repr, DecidableEq

/-- Abstraction of the HTML parsing done with BeautifulSoup and `re`:
`searchSections html` lists the `div.search-section` elements of a page as
(section text, contained anchors); `clubsTable html` is the anchor list of
the `table#clubs` element when that table exists; `squadId href` is the
group of `re.search(r'/squads/([a-f0-9]+)/', href)`; `urljoin` is
`urllib.parse.urljoin`. -/
structure ParseEnv where
  searchSections : String → List (String × List Anchor)
  clubsTable : String → Option (List Anchor)
  squadId : String → Option String
  urljoin : String → String → String

def FBREF_BASE_URL : String := "https://fbref.com/en/"

/-- The search URL built at fbref_collector.py line 205. -/
def searchUrl (teamName : String) : String :=
  FBREF_BASE_URL ++ "search/search.fcgi?search=" ++ teamName

/-- The league clubs URL built at fbref_collector.py line 252. -/
def leagueUrl (leagueId : String) : String :=
  FBREF_BASE_URL ++ "comps/" ++ leagueId ++ "/clubs/"

/-- The cache key of `search_team` (line 199). -/
def bareKey (teamName : String) : String := lowerStr teamName

/-- The cache key of `find_team_in_league` (line 247). -/
def scopedKey (teamName leagueId : String) : String :=
  lowerStr teamName ++ ":" ++ leagueId

/-- Mapper state: the requester it drives, the in-memory
`mapping_cache` dict (most recent binding first) and the on-disk
`team_mapping.json` contents (`none` when the file is absent). -/
structure MapperState where
  req : ReqState
  mappingCache : List (String × TeamInfo)
  mappingDisk : Option (List (String × TeamInfo))
deriving Repr, DecidableEq

/-- Result of a resolution: a team identity, a `None` (team not found), a
propagated `requests.HTTPError`, or retry-fuel exhaustion inside the
requester. -/
inductive ResolveResult
  | found (info : TeamInfo) (ms : MapperState)
  | notFound (ms : MapperState)
  | httpError (status : Nat) (ms : MapperState)
  | fuelOut
deriving Repr, DecidableEq

/-- The search-result scan of `search_team` (lines 210-224): team links in
`div.search-section` elements whose text contains "Teams", keeping anchors
whose href contains "/squads/" and yields a squad id. -/
def searchTeamResults (env : ParseEnv) (html : String) : List TeamInfo :=
  ((env.searchSections html).filter fun sec => containsStr "Teams" sec.1).flatMap
    fun sec =>
      sec.2.filterMap fun a =>
        if containsStr "/squads/" a.href then
          (env.squadId a.href).map fun i =>
            ⟨i, a.text, env.urljoin FBREF_BASE_URL a.href⟩
        else none

/-- `FBrefTeamMapper.search_team` (fbref_collector.py, lines 188-234). -/
def search_team (o : Oracle) (cfg : ReqConfig) (env : ParseEnv) (fuel : Nat)
    (ms : MapperState) (teamName : String) : ResolveResult :=
  match assocLookup ms.mappingCache (bareKey teamName) with
  | some info => .found info ms
  | none =>
    match RateLimitedRequester.get o cfg fuel ms.req (searchUrl teamName) true with
    | .fuelOut => .fuelOut
    | .httpError st s' => .httpError st { ms with req := s' }
    | .ok html s' =>
      match searchTeamResults env html with
      | [] => .notFound { ms with req := s' }
      | best :: _ =>
        let cache' := (bareKey teamName, best) :: ms.mappingCache
        .found best ⟨s', cache', some cache'⟩

/-- Python `str.strip()` with no argument: drop leading and trailing
whitespace (modelled on the character list so that it evaluates in the
kernel). -/
def stripStr (s : String) : String :=
  ⟨((s.data.dropWhile Char.isWhitespace).reverse.dropWhile Char.isWhitespace).reverse⟩

/-- The case-insensitive containment test of fbref_collector.py line 263:
`team_name.lower() in a.get_text().strip().lower()`. -/
def nameMatchesQuery (teamName : String) (a : Anchor) : Bool :=
  containsStr (lowerStr teamName) (lowerStr (stripStr a.text))

/-- The parsed team entries of a league roster page: the anchors of the
clubs table paired with their extracted squad ids (an anchor whose href
yields no squad id is not a team entry). -/
def parsedTeamEntries (env : ParseEnv) (anchors : List Anchor) :
    List (Anchor × String) :=
  anchors.filterMap fun a => (env.squadId a.href).map fun i => (a, i)

/-- The anchor loop of `find_team_in_league` (lines 261-275): the first
anchor of the clubs table whose stripped text contains the queried name
case-insensitively and whose href yields a squad id. -/
def selectClub (env : ParseEnv) (teamName : String) : List Anchor → Option TeamInfo
  | [] => none
  | a :: rest =>
    if nameMatchesQuery teamName a then
      match env.squadId a.href with
      | some i => some ⟨i, stripStr a.text, env.urljoin FBREF_BASE_URL a.href⟩
      | none => selectClub env teamName rest
    else selectClub env teamName rest

/-- `FBrefTeamMapper.find_team_in_league` (fbref_collector.py, lines
236-278). -/
def find_team_in_league (o : Oracle) (cfg : ReqConfig) (env : ParseEnv)
    (fuel : Nat) (ms : MapperState) (teamName leagueId : String) : ResolveResult :=
  match assocLookup ms.mappingCache (scopedKey teamName leagueId) with
  | some info => .found info ms
  | none =>
    match RateLimitedRequester.get o cfg fuel ms.req (leagueUrl leagueId) true with
    | .fuelOut => .fuelOut
    | .httpError st s' => .httpError st { ms with req := s' }
    | .ok html s' =>
      match env.clubsTable html with
      | none => search_team o cfg env fuel { ms with req := s' } teamName
      | some anchors =>
        match selectClub env teamName anchors with
        | some info =>
          let cache' := (scopedKey teamName leagueId, info) :: ms.mappingCache
          .found info ⟨s', cache', some cache'⟩
        | none => search_team o cfg env fuel { ms with req := s' } teamName

/- ### The bulk updater (update_stats.py) and record extraction -/

/-- A flat file system: path to contents, most recent write first. -/
def FS : Type := List (String × String)

/-- Contents of a file, when it exists. -/
def fsRead : FS → String → Option String
  | [], _ => none
  | (p, c) :: rest, path => if p = path then some c else fsRead rest path

/-- Writing (creating or overwriting) a file. -/
def fsWrite (fs : FS) (path contents : String) : FS := (path, contents) :: fs

/-- Removing every binding of a path. -/
def fsErase (fs : FS) (path : String) : FS :=
  fs.filter fun pc => pc.1 ≠ path

/-- `os.rename src dst` for an existing source file. -/
def fsRename (fs : FS) (src dst : String) : FS :=
  match fsRead fs src with
  | some c => fsWrite (fsErase fs src) dst c
  | none => fs

/-- A value written into an output cell: a number or `pd.NA`. -/
abbrev StatVal := Option Nat

/-- `STATS_FIELDS` of update_stats.py (lines 25-31). -/
def STATS_FIELDS : List String :=
  ["Goals for", "Goals against", "Total shots", "Shots on target", "Possession (%)"]

/-- One match object returned by the football-data API: its `utcDate`
string and its payload as seen by `extract_stats` (abstracted to the match
id the stats request uses). -/
structure ApiMatch where
  utcDate : String
  matchPayload : Nat
deriving Repr, DecidableEq

/-- Environment of `update_csv`: the `teams` block of id_mappings.json
(`team_map`), the unsorted match list the API returns for a team id, and
the per-match statistics `extract_stats` obtains over the network
(abstracted; its own HTTP traffic is outside the embedded core). -/
structure UpdateEnv where
  teamMap : List (String × Nat)
  apiMatches : Nat → List ApiMatch
  extract : ApiMatch → String → String → StatVal

/-- `fetch_team_by_search` (update_stats.py, lines 100-113): always
`None` — the API offers no name search. -/
def fetch_team_by_search (_teamName : String) : Option Nat := none

/-- `lookup_team_id` (update_stats.py, lines 116-124): the mapping entry
when it is truthy, else the (always failing) API search. -/
def lookup_team_id (teamMap : List (String × Nat)) (teamName : String) : Option Nat :=
  match assocLookup teamMap teamName with
  | some tid => if tid ≠ 0 then some tid else fetch_team_by_search teamName
  | none => fetch_team_by_search teamName

/-- Python's stable `list.sort(key=key, reverse=True)`: larger keys first,
ties keep their original order. -/
def sortDescBy {α κ : Type} [LinearOrder κ] (key : α → κ) (l : List α) : List α :=
  List.insertionSort (fun a b => key b ≤ key a) l

/-- The selection step of `fetch_last_matches` (update_stats.py, lines
146-152): sort the returned matches by `utcDate` descending and keep the
first `n`. -/
def fetch_last_matches_sel (data : List ApiMatch) (n : Nat) : List ApiMatch :=
  (sortDescBy (fun m => m.utcDate) data).take n

/-- `fetch_last_matches` (update_stats.py, lines 127-159) for a known team
id, ignoring transport failures (which yield `[]`). -/
def fetch_last_matches (env : UpdateEnv) (tid : Nat) (n : Nat) : List ApiMatch :=
  fetch_last_matches_sel (env.apiMatches tid) n

/-- The column name `f"Match {i} {field}"` (update_stats.py, lines 236 and
245). -/
def matchField (i : Nat) (field : String) : String :=
  "Match " ++ toString i ++ " " ++ field

/-- The NA filling of update_stats.py lines 233-236: every `Match i field`
cell of one row set to `pd.NA`. -/
def naStats : List (String × StatVal) :=
  (List.range' 1 7).flatMap fun i =>
    STATS_FIELDS.map fun field => (matchField i field, none)

/-- The populated filling of update_stats.py lines 238-245: for each slot
`i ≤ 7`, the stats extracted from the `i`-th fetched match, or `pd.NA`
cells past the end of the list. -/
def matchStats (env : UpdateEnv) (tid : Nat) (teamName : String) :
    List (String × StatVal) :=
  let ms := fetch_last_matches env tid 7
  (List.range' 1 7).flatMap fun i =>
    STATS_FIELDS.map fun field =>
      (matchField i field,
        match ms.get? (i - 1) with
        | some m => env.extract m teamName field
        | none => none)

/-- One input row of the bulk-update CSV: its `Team` cell and the rest of
the row. -/
structure CsvRow where
  team : String
  rest : List (String × String)
deriving Repr, DecidableEq

/-- The per-row body of the `update_csv` loop (update_stats.py, lines
221-247): a row whose team id cannot be found gets explicit NA stats, any
other row gets stats extracted from its fetched matches; every input row
yields exactly one output row. -/
def rowStats (env : UpdateEnv) (teamName : String) : List (String × StatVal) :=
  match lookup_team_id env.teamMap teamName with
  | none => naStats
  | some tid => matchStats env tid teamName

/-- The output rows built by `update_csv` (original cells merged with the
new stat columns). -/
def update_csv_rows (env : UpdateEnv) (rows : List CsvRow) :
    List (CsvRow × List (String × StatVal)) :=
  rows.map fun r => (r, rowStats env r.team)

/-- The write-back step of `update_csv` (update_stats.py, lines 249-267),
over the updated table rendered to CSV text by `render`: on a row-count
mismatch the updated table goes to `CSV_PATH + ".new"` and the function
returns; otherwise the original is renamed to a timestamped backup and the
updated table written in its place. -/
def update_csv_finish (render : List (CsvRow × List (String × StatVal)) → String)
    (bakSuffix : String) (fs : FS) (csvPath : String) (dfLen : Nat)
    (updated : List (CsvRow × List (String × StatVal))) : FS :=
  if updated.length ≠ dfLen then
    fsWrite fs (csvPath ++ ".new") (render updated)
  else
    fsWrite (fsRename fs csvPath (csvPath ++ bakSuffix)) csvPath (render updated)

/-- The `points` dict of `get_team_matches` (fbref_collector.py, line
363). -/
def pointsMap : List (String × Nat) := [("W", 3), ("D", 1), ("L", 0)]

/-- The result-to-points dict lookup of fbref_collector.py line 363 on
one cell: `pandas.Series.map` leaves NaN (here `none`) for keys absent
from the dict. -/
def resultPoints (result : String) : Option Nat :=
  assocLookup pointsMap result

/-- A row of the fbref match-log table after renaming, as far as the
sort/truncate step of `get_team_matches` needs it: the parsed date
(totally ordered) and the rest of the row. -/
structure MatchRow where
  date : Nat
  rowPayload : Nat
deriving Repr, DecidableEq

/-- The sort/truncate step of `get_team_matches` (fbref_collector.py, line
351): `sort_values('date', ascending=False).head(lookback)`. -/
def get_team_matches_sel (rows : List MatchRow) (lookback : Nat) : List MatchRow :=
  (sortDescBy (fun r => r.date) rows).take lookback

/-- External time passing between two calls into the resolver. -/
def advanceM (ms : MapperState) (d : Nat) : MapperState :=
  { ms with req := advance ms.req d }

/-- The wall-clock time at which a cache-miss request issued from state
`s` completes (after sleeping out the remainder of the random delay and
the request's own duration): the value `time.time()` assigned to
`last_request_time` at fbref_collector.py line 139. -/
def reqFinishTime (o : Oracle) (s : ReqState) : Nat :=
  (if s.clock - s.lastRequestTime < o.delay s.nCalls
   then s.clock + (o.delay s.nCalls - (s.clock - s.lastRequestTime))
   else s.clock) + o.reqTime s.nCalls

/- ### Generic sorting facts -/

theorem sortDescBy_take_spec {α κ : Type} [LinearOrder κ] (key : α → κ)
    (l : List α) (n : Nat) :
    ((sortDescBy key l).take n).length = min n l.length
    ∧ List.Sorted (fun a b => key b ≤ key a) ((sortDescBy key l).take n)
    ∧ ∃ rest, l.Perm ((sortDescBy key l).take n ++ rest)
        ∧ ∀ a ∈ (sortDescBy key l).take n, ∀ b ∈ rest, key b ≤ key a := by
  haveI htot : IsTotal α (fun a b => key b ≤ key a) :=
    ⟨fun a b => le_total (key b) (key a)⟩
  haveI htr : IsTrans α (fun a b => key b ≤ key a) :=
    ⟨fun _ _ _ hab hbc => le_trans hbc hab⟩
  have hperm : List.Perm (sortDescBy key l) l :=
    List.perm_insertionSort _ l
  have hsorted : List.Sorted (fun a b => key b ≤ key a) (sortDescBy key l) :=
    List.sorted_insertionSort _ l
  refine ⟨?_, ?_, (sortDescBy key l).drop n, ?_, ?_⟩
  · rw [List.length_take, hperm.length_eq]
  · exact List.Pairwise.sublist (List.take_sublist n _) hsorted
  · rw [List.take_append_drop]
    exact hperm.symm
  · have hp : List.Pairwise (fun a b => key b ≤ key a)
        ((sortDescBy key l).take n ++ (sortDescBy key l).drop n) := by
      rw [List.take_append_drop]; exact hsorted
    exact fun a ha b hb => (List.pairwise_append.1 hp).2.2 a ha b hb

/- ### Claim theorems -/

/-- C8: `result="W"` maps to `points=3`, `"D"` to 1, `"L"` to 0, and any
other result value maps to an absent (`NaN`) points value. -/
theorem points_mapping (r : String) (h : r ≠ "W" ∧ r ≠ "D" ∧ r ≠ "L") :
    resultPoints "W" = some 3 ∧ resultPoints "D" = some 1 ∧
    resultPoints "L" = some 0 ∧ resultPoints r = none := by
  refine ⟨rfl, rfl, rfl, ?_⟩
  have h1 : ¬("W" = r) := fun e => h.1 e.symm
  have h2 : ¬("D" = r) := fun e => h.2.1 e.symm
  have h3 : ¬("L" = r) := fun e => h.2.2 e.symm
  simp [resultPoints, pointsMap, assocLookup, h1, h2, h3]

theorem points_mapping_witness :
    ("X" ≠ "W" ∧ "X" ≠ "D" ∧ "X" ≠ "L") ∧
    (resultPoints "W" = some 3 ∧ resultPoints "D" = some 1 ∧
     resultPoints "L" = some 0 ∧ resultPoints "X" = none) :=
  ⟨by decide, points_mapping "X" (by decide)⟩

/-- C3: when the updated table's row count differs from the input's, the
write-back step stores the updated table under `CSV_PATH + ".new"` and the
content of the original output file is unchanged. -/
theorem mismatch_keeps_original (render : List (CsvRow × List (String × StatVal)) → String)
    (bakSuffix : String) (fs : FS) (csvPath : String) (dfLen : Nat)
    (updated : List (CsvRow × List (String × StatVal)))
    (hmis : updated.length ≠ dfLen) :
    fsRead (update_csv_finish render bakSuffix fs csvPath dfLen updated) csvPath
      = fsRead fs csvPath
    ∧ fsRead (update_csv_finish render bakSuffix fs csvPath dfLen updated)
        (csvPath ++ ".new") = some (render updated) := by
  have hcons : ∀ (p c : String) (fs' : FS) (path : String),
      fsRead ((p, c) :: fs') path = if p = path then some c else fsRead fs' path :=
    fun _ _ _ _ => rfl
  unfold update_csv_finish
  rw [if_pos hmis]
  constructor
  · show fsRead ((csvPath ++ ".new", render updated) :: fs) csvPath = fsRead fs csvPath
    rw [hcons, if_neg]
    intro hcontra
    have hlen := congrArg String.length hcontra
    rw [String.length_append] at hlen
    have h4 : (".new" : String).length = 4 := rfl
    omega
  · show fsRead ((csvPath ++ ".new", render updated) :: fs) (csvPath ++ ".new")
        = some (render updated)
    rw [hcons, if_pos rfl]

theorem mismatch_keeps_original_witness :
    ([((⟨"A", []⟩ : CsvRow), ([] : List (String × StatVal)))].length ≠ 2) ∧
    (fsRead (update_csv_finish (fun _ => "csv") ".bak" [("p", "orig")] "p" 2
        [(⟨"A", []⟩, [])]) "p" = some "orig"
     ∧ fsRead (update_csv_finish (fun _ => "csv") ".bak" [("p", "orig")] "p" 2
        [(⟨"A", []⟩, [])]) ("p" ++ ".new") = some "csv") :=
  ⟨by decide,
   by
    have h := mismatch_keeps_original (fun _ => "csv") ".bak" [("p", "orig")] "p" 2
      [(⟨"A", []⟩, [])] (by decide)
    exact ⟨h.1.trans (by decide), h.2⟩⟩

/-- C6: the match selection of `fetch_last_matches` (and the identical
sort/truncate step of `get_team_matches`) returns at most `n` records;
when more are available upstream it returns exactly `n`, they are ordered
descending by date, and every returned record's date is at least the date
of every record left out. -/
theorem recent_matches_limit (env : UpdateEnv) (tid n : Nat)
    (rows : List MatchRow) (lookback : Nat) :
    (fetch_last_matches env tid n).length = min n (env.apiMatches tid).length
    ∧ List.Sorted (fun a b => b.utcDate ≤ a.utcDate) (fetch_last_matches env tid n)
    ∧ (∃ rest, (env.apiMatches tid).Perm (fetch_last_matches env tid n ++ rest)
        ∧ ∀ a ∈ fetch_last_matches env tid n, ∀ b ∈ rest, b.utcDate ≤ a.utcDate)
    ∧ (get_team_matches_sel rows lookback).length = min lookback rows.length
    ∧ List.Sorted (fun a b => b.date ≤ a.date) (get_team_matches_sel rows lookback)
    ∧ (∃ rest, rows.Perm (get_team_matches_sel rows lookback ++ rest)
        ∧ ∀ a ∈ get_team_matches_sel rows lookback, ∀ b ∈ rest, b.date ≤ a.date) := by
  have h1 := sortDescBy_take_spec (fun m : ApiMatch => m.utcDate) (env.apiMatches tid) n
  have h2 := sortDescBy_take_spec (fun r : MatchRow => r.date) rows lookback
  exact ⟨h1.1, h1.2.1, h1.2.2, h2.1, h2.2.1, h2.2.2⟩

/-- C7: in the `update_csv` batch loop, a team whose id resolves and a
team whose id is not found both produce an output row — the run is not
aborted — and the not-found row's stat cells are all explicitly NA. -/
theorem batch_isolates_notfound (env : UpdateEnv) (r1 r2 : CsvRow) (tid : Nat)
    (h1 : lookup_team_id env.teamMap r1.team = some tid)
    (h2 : lookup_team_id env.teamMap r2.team = none) :
    update_csv_rows env [r1, r2]
      = [(r1, matchStats env tid r1.team), (r2, naStats)]
    ∧ (∀ p ∈ naStats, p.2 = none)
    ∧ naStats.length = 35
    ∧ (matchStats env tid r1.team).length = 35 := by
  refine ⟨?_, by decide, by decide, ?_⟩
  · simp [update_csv_rows, rowStats, h1, h2]
  · simp [matchStats, STATS_FIELDS, List.range']

theorem batch_isolates_notfound_witness :
    (lookup_team_id [("A", 5)] "A" = some 5
     ∧ lookup_team_id [("A", 5)] "B" = none) ∧
    (update_csv_rows ⟨[("A", 5)], fun _ => [], fun _ _ _ => none⟩
        [⟨"A", []⟩, ⟨"B", []⟩]
      = [(⟨"A", []⟩,
          matchStats ⟨[("A", 5)], fun _ => [], fun _ _ _ => none⟩ 5 "A"),
         (⟨"B", []⟩, naStats)]
     ∧ (∀ p ∈ naStats, p.2 = none)
     ∧ naStats.length = 35
     ∧ (matchStats ⟨[("A", 5)], fun _ => [], fun _ _ _ => none⟩ 5 "A").length = 35) :=
  ⟨⟨by decide, by decide⟩,
   batch_isolates_notfound ⟨[("A", 5)], fun _ => [], fun _ _ _ => none⟩
     ⟨"A", []⟩ ⟨"B", []⟩ 5 (by decide) (by decide)⟩

/- ### Requester step lemmas -/

theorem get_succ_hit (o : Oracle) (cfg : ReqConfig) (fuel : Nat) (s : ReqState)
    (url : String) (useCache : Bool) (b : String)
    (h : freshHit cfg s url useCache = some b) :
    RateLimitedRequester.get o cfg (fuel + 1) s url useCache = .ok b s := by
  simp only [RateLimitedRequester.get, h]

theorem get_step_429 (o : Oracle) (cfg : ReqConfig) (fuel : Nat) (s : ReqState)
    (url : String) (useCache : Bool)
    (hmiss : freshHit cfg s url useCache = none)
    (h : (o.server s.nCalls url).1 = 429) :
    RateLimitedRequester.get o cfg (fuel + 1) s url useCache
      = RateLimitedRequester.get o cfg fuel
          ⟨s.cache, reqFinishTime o s, reqFinishTime o s + 60, s.nCalls + 1⟩
          url useCache := by
  simp only [RateLimitedRequester.get, hmiss, reqFinishTime]
  rw [if_pos h]

theorem get_step_err (o : Oracle) (cfg : ReqConfig) (fuel : Nat) (s : ReqState)
    (url : String) (useCache : Bool)
    (hmiss : freshHit cfg s url useCache = none)
    (h1 : 400 ≤ (o.server s.nCalls url).1) (h2 : (o.server s.nCalls url).1 < 600)
    (h3 : (o.server s.nCalls url).1 ≠ 429) :
    RateLimitedRequester.get o cfg (fuel + 1) s url useCache
      = .httpError (o.server s.nCalls url).1
          ⟨s.cache, reqFinishTime o s, reqFinishTime o s, s.nCalls + 1⟩ := by
  simp only [RateLimitedRequester.get, hmiss, reqFinishTime]
  rw [if_neg h3, if_pos ⟨h1, h2⟩]

theorem get_step_ok (o : Oracle) (cfg : ReqConfig) (fuel : Nat) (s : ReqState)
    (url : String) (useCache : Bool)
    (hmiss : freshHit cfg s url useCache = none)
    (h1 : (o.server s.nCalls url).1 ≠ 429)
    (h2 : ¬(400 ≤ (o.server s.nCalls url).1 ∧ (o.server s.nCalls url).1 < 600)) :
    RateLimitedRequester.get o cfg (fuel + 1) s url useCache
      = .ok (o.server s.nCalls url).2
          ⟨(url, (o.server s.nCalls url).2, reqFinishTime o s) :: s.cache,
           reqFinishTime o s, reqFinishTime o s, s.nCalls + 1⟩ := by
  simp only [RateLimitedRequester.get, hmiss, reqFinishTime]
  rw [if_neg h1, if_neg h2]

theorem reqFinishTime_ge (o : Oracle) (s : ReqState)
    (hle : s.lastRequestTime ≤ s.clock) :
    s.lastRequestTime + o.delay s.nCalls ≤ reqFinishTime o s := by
  unfold reqFinishTime
  split <;> omega

theorem freshHit_none_of_miss (cfg : ReqConfig) (s : ReqState) (url : String)
    (useCache : Bool) (hmiss : cacheLookup s.cache url = none) :
    freshHit cfg s url useCache = none := by
  unfold freshHit
  cases useCache <;> simp [hmiss]

/-- C1: with caching allowed and a cache entry younger than the TTL,
`get` returns that entry's body with the requester state — in particular
`last_request_time` (the RequestBudget) and the count of outbound
requests — completely unchanged; consequently, starting from a miss, a
successful fetch followed by a re-fetch of the same URL within the TTL
issues exactly one network request in total, while a re-fetch whose
cache age has reached the TTL treats the entry as absent and issues a
second request. -/
theorem fetch_cache_frame (o : Oracle) (cfg : ReqConfig) (fuel : Nat)
    (s : ReqState) (url b : String) (mt : Nat)
    (hhit : cacheLookup s.cache url = some (b, mt))
    (hfresh : s.clock - mt < cfg.ttl)
    (s0 : ReqState) (url0 : String) (d : Nat)
    (hmiss : cacheLookup s0.cache url0 = none)
    (hok1 : (o.server s0.nCalls url0).1 < 400)
    (hok2 : (o.server (s0.nCalls + 1) url0).1 < 400) :
    RateLimitedRequester.get o cfg (fuel + 1) s url true = .ok b s
    ∧ ∃ body1 s1,
        RateLimitedRequester.get o cfg (fuel + 1) s0 url0 true = .ok body1 s1
        ∧ s1.nCalls = s0.nCalls + 1
        ∧ (d < cfg.ttl →
            RateLimitedRequester.get o cfg (fuel + 1) (advance s1 d) url0 true
              = .ok body1 (advance s1 d))
        ∧ (cfg.ttl ≤ d →
            ∃ s2, RateLimitedRequester.get o cfg (fuel + 1) (advance s1 d) url0 true
                = .ok (o.server (s0.nCalls + 1) url0).2 s2
              ∧ s2.nCalls = s0.nCalls + 2) := by
  constructor
  · exact get_succ_hit o cfg fuel s url true b (by simp [freshHit, hhit, hfresh])
  · refine ⟨(o.server s0.nCalls url0).2,
      ⟨(url0, (o.server s0.nCalls url0).2, reqFinishTime o s0) :: s0.cache,
       reqFinishTime o s0, reqFinishTime o s0, s0.nCalls + 1⟩, ?_, rfl, ?_, ?_⟩
    · exact get_step_ok o cfg fuel s0 url0 true
        (freshHit_none_of_miss cfg s0 url0 true hmiss) (by omega) (by omega)
    · intro hd
      refine get_succ_hit o cfg fuel _ url0 true _ ?_
      simp [freshHit, advance, cacheLookup, Nat.add_sub_cancel_left, hd]
    · intro hd
      have hmiss2 : freshHit cfg
          (advance ⟨(url0, (o.server s0.nCalls url0).2, reqFinishTime o s0) :: s0.cache,
            reqFinishTime o s0, reqFinishTime o s0, s0.nCalls + 1⟩ d) url0 true = none := by
        simp [freshHit, advance, cacheLookup, Nat.add_sub_cancel_left]
        omega
      have hok2' :
          (o.server
            (advance ⟨(url0, (o.server s0.nCalls url0).2, reqFinishTime o s0) :: s0.cache,
              reqFinishTime o s0, reqFinishTime o s0, s0.nCalls + 1⟩ d).nCalls url0).1 < 400 :=
        hok2
      exact ⟨_, get_step_ok o cfg fuel _ url0 true hmiss2 (by omega) (by omega), rfl⟩

theorem fetch_cache_frame_witness :
    (cacheLookup [("u", "b", 0)] "u" = some ("b", 0) ∧ (0 : Nat) - 0 < 10
     ∧ cacheLookup ([] : List (String × String × Nat)) "v" = none) ∧
    (RateLimitedRequester.get ⟨fun _ => 1, fun _ => 1, fun _ _ => (200, "B")⟩ ⟨10⟩ 1
        ⟨[("u", "b", 0)], 0, 0, 0⟩ "u" true = .ok "b" ⟨[("u", "b", 0)], 0, 0, 0⟩
     ∧ ∃ body1 s1,
        RateLimitedRequester.get ⟨fun _ => 1, fun _ => 1, fun _ _ => (200, "B")⟩ ⟨10⟩ 1
            ⟨[], 0, 0, 0⟩ "v" true = .ok body1 s1
        ∧ s1.nCalls = 0 + 1
        ∧ (20 < 10 →
            RateLimitedRequester.get ⟨fun _ => 1, fun _ => 1, fun _ _ => (200, "B")⟩ ⟨10⟩ 1
              (advance s1 20) "v" true = .ok body1 (advance s1 20))
        ∧ (10 ≤ 20 →
            ∃ s2, RateLimitedRequester.get ⟨fun _ => 1, fun _ => 1, fun _ _ => (200, "B")⟩
                ⟨10⟩ 1 (advance s1 20) "v" true
                = .ok ((⟨fun _ => 1, fun _ => 1, fun _ _ => (200, "B")⟩ : Oracle).server
                    (0 + 1) "v").2 s2
              ∧ s2.nCalls = 0 + 2)) :=
  ⟨⟨by decide, by decide, by decide⟩,
   fetch_cache_frame ⟨fun _ => 1, fun _ => 1, fun _ _ => (200, "B")⟩ ⟨10⟩ 0
     ⟨[("u", "b", 0)], 0, 0, 0⟩ "u" "b" 0 (by decide) (by decide)
     ⟨[], 0, 0, 0⟩ "v" 20 (by decide) (by decide) (by decide)⟩

/-- C10: on every cache-miss call, whatever the response status — 429
(which sleeps and retries), another 4xx/5xx (which raises), or success —
`last_request_time` is set to the completion time of the outbound
request, and that request finishes no earlier than the previous
`last_request_time` plus the drawn inter-request delay: the minimum
spacing is enforced even around failing requests. -/
theorem budget_update_on_miss (o : Oracle) (cfg : ReqConfig) (fuel : Nat)
    (s : ReqState) (url : String) (useCache : Bool)
    (hmiss : freshHit cfg s url useCache = none)
    (hle : s.lastRequestTime ≤ s.clock) :
    ((o.server s.nCalls url).1 = 429 →
      RateLimitedRequester.get o cfg (fuel + 1) s url useCache
        = RateLimitedRequester.get o cfg fuel
            ⟨s.cache, reqFinishTime o s, reqFinishTime o s + 60, s.nCalls + 1⟩
            url useCache)
    ∧ (400 ≤ (o.server s.nCalls url).1 → (o.server s.nCalls url).1 < 600 →
        (o.server s.nCalls url).1 ≠ 429 →
        RateLimitedRequester.get o cfg (fuel + 1) s url useCache
          = .httpError (o.server s.nCalls url).1
              ⟨s.cache, reqFinishTime o s, reqFinishTime o s, s.nCalls + 1⟩)
    ∧ ((o.server s.nCalls url).1 < 400 →
        RateLimitedRequester.get o cfg (fuel + 1) s url useCache
          = .ok (o.server s.nCalls url).2
              ⟨(url, (o.server s.nCalls url).2, reqFinishTime o s) :: s.cache,
               reqFinishTime o s, reqFinishTime o s, s.nCalls + 1⟩)
    ∧ s.lastRequestTime + o.delay s.nCalls ≤ reqFinishTime o s :=
  ⟨fun h => get_step_429 o cfg fuel s url useCache hmiss h,
   fun h1 h2 h3 => get_step_err o cfg fuel s url useCache hmiss h1 h2 h3,
   fun h => get_step_ok o cfg fuel s url useCache hmiss (by omega) (by omega),
   reqFinishTime_ge o s hle⟩

theorem budget_update_on_miss_witness :
    (freshHit ⟨10⟩ ⟨[], 2, 5, 0⟩ "u" true = none ∧ (2 : Nat) ≤ 5) ∧
    ((((⟨fun _ => 4, fun _ => 0, fun _ _ => (404, "")⟩ : Oracle).server 0 "u").1 = 429 →
      RateLimitedRequester.get ⟨fun _ => 4, fun _ => 0, fun _ _ => (404, "")⟩ ⟨10⟩ 1
          ⟨[], 2, 5, 0⟩ "u" true
        = RateLimitedRequester.get ⟨fun _ => 4, fun _ => 0, fun _ _ => (404, "")⟩ ⟨10⟩ 0
            ⟨[], reqFinishTime ⟨fun _ => 4, fun _ => 0, fun _ _ => (404, "")⟩ ⟨[], 2, 5, 0⟩,
             reqFinishTime ⟨fun _ => 4, fun _ => 0, fun _ _ => (404, "")⟩ ⟨[], 2, 5, 0⟩ + 60,
             1⟩ "u" true)
     ∧ (400 ≤ 404 → 404 < 600 → 404 ≠ 429 →
        RateLimitedRequester.get ⟨fun _ => 4, fun _ => 0, fun _ _ => (404, "")⟩ ⟨10⟩ 1
            ⟨[], 2, 5, 0⟩ "u" true
          = .httpError 404
              ⟨[], reqFinishTime ⟨fun _ => 4, fun _ => 0, fun _ _ => (404, "")⟩ ⟨[], 2, 5, 0⟩,
               reqFinishTime ⟨fun _ => 4, fun _ => 0, fun _ _ => (404, "")⟩ ⟨[], 2, 5, 0⟩, 1⟩)
     ∧ (404 < 400 →
        RateLimitedRequester.get ⟨fun _ => 4, fun _ => 0, fun _ _ => (404, "")⟩ ⟨10⟩ 1
            ⟨[], 2, 5, 0⟩ "u" true
          = .ok ""
              ⟨[("u", "",
                 reqFinishTime ⟨fun _ => 4, fun _ => 0, fun _ _ => (404, "")⟩ ⟨[], 2, 5, 0⟩)],
               reqFinishTime ⟨fun _ => 4, fun _ => 0, fun _ _ => (404, "")⟩ ⟨[], 2, 5, 0⟩,
               reqFinishTime ⟨fun _ => 4, fun _ => 0, fun _ _ => (404, "")⟩ ⟨[], 2, 5, 0⟩, 1⟩)
     ∧ 2 + 4 ≤ reqFinishTime ⟨fun _ => 4, fun _ => 0, fun _ _ => (404, "")⟩ ⟨[], 2, 5, 0⟩) :=
  ⟨⟨by decide, by decide⟩,
   budget_update_on_miss ⟨fun _ => 4, fun _ => 0, fun _ _ => (404, "")⟩ ⟨10⟩ 0
     ⟨[], 2, 5, 0⟩ "u" true (by decide) (by decide)⟩

/-- C2 counterexample: against a server that always answers 429 the code
goes through six (and as many as desired) attempts without surfacing any
result or error: no retry cap exists, and the code base has no
RateLimitExceeded error at all. -/
theorem retry_cap_counterexample :
    RateLimitedRequester.get ⟨fun _ => 0, fun _ => 0, fun _ _ => (429, "")⟩ ⟨86400⟩ 6
      ⟨[], 0, 0, 0⟩ "u" true = .fuelOut
    ∧ RateLimitedRequester.get ⟨fun _ => 0, fun _ => 0, fun _ _ => (429, "")⟩ ⟨86400⟩ 50
      ⟨[], 0, 0, 0⟩ "u" true = .fuelOut :=
  ⟨by decide, by decide⟩

/-- C2 (amended): a 429 response makes `get` sleep 60 seconds and retry
the same request recursively with no cap on the number of attempts: on a
persistently rate-limiting server the recursion never produces any
outcome — for every bound on the number of attempts the computation is
still retrying — and no RateLimitExceeded error is ever surfaced.
(Termination holds exactly when some attempt is answered with a non-429
status; the retry-and-sleep step itself is the first conjunct of
`budget_update_on_miss`.) -/
theorem persistent_429_no_outcome (o : Oracle) (cfg : ReqConfig)
    (h429 : ∀ k u, (o.server k u).1 = 429)
    (fuel : Nat) (s : ReqState) (url : String)
    (hmiss : cacheLookup s.cache url = none) :
    RateLimitedRequester.get o cfg fuel s url true = .fuelOut := by
  induction fuel generalizing s with
  | zero => rfl
  | succ n ih =>
    rw [get_step_429 o cfg n s url true (freshHit_none_of_miss cfg s url true hmiss)
      (h429 s.nCalls url)]
    exact ih _ hmiss

theorem persistent_429_no_outcome_witness :
    (∀ k u, ((⟨fun _ => 0, fun _ => 0, fun _ _ => (429, "x")⟩ : Oracle).server k u).1 = 429
     ∧ cacheLookup ([] : List (String × String × Nat)) "u" = none) ∧
    RateLimitedRequester.get ⟨fun _ => 0, fun _ => 0, fun _ _ => (429, "x")⟩ ⟨86400⟩ 7
      ⟨[], 0, 0, 0⟩ "u" true = .fuelOut :=
  ⟨fun _ _ => ⟨rfl, rfl⟩,
   persistent_429_no_outcome ⟨fun _ => 0, fun _ => 0, fun _ _ => (429, "x")⟩ ⟨86400⟩
     (fun _ _ => rfl) 7 ⟨[], 0, 0, 0⟩ "u" rfl⟩

/- ### Cache-persistence lemmas for the requester -/

theorem cacheLookup_mem (c : List (String × String × Nat)) (u b : String) (mt : Nat)
    (h : cacheLookup c u = some (b, mt)) : (u, b, mt) ∈ c := by
  induction c with
  | nil => exact absurd h (by simp [cacheLookup])
  | cons e rest ih =>
    obtain ⟨eu, eb, et⟩ := e
    by_cases he : eu = u
    · rw [show cacheLookup ((eu, eb, et) :: rest) u
          = if eu = u then some (eb, et) else cacheLookup rest u from rfl,
        if_pos he] at h
      obtain ⟨h1, h2⟩ := Prod.mk.injEq .. ▸ Option.some.injEq .. ▸ h
      exact he ▸ h1 ▸ h2 ▸ List.mem_cons_self _ _
    · rw [show cacheLookup ((eu, eb, et) :: rest) u
          = if eu = u then some (eb, et) else cacheLookup rest u from rfl,
        if_neg he] at h
      exact List.mem_cons_of_mem _ (ih h)

theorem freshHit_some_lookup (cfg : ReqConfig) (s : ReqState) (url : String)
    (useCache : Bool) (b : String)
    (h : freshHit cfg s url useCache = some b) :
    ∃ mt, cacheLookup s.cache url = some (b, mt) := by
  unfold freshHit at h
  cases useCache with
  | false => simp at h
  | true =>
    simp only [if_true] at h
    cases hl : cacheLookup s.cache url with
    | none => rw [hl] at h; simp at h
    | some p =>
      obtain ⟨pb, pmt⟩ := p
      rw [hl] at h
      have h' : (if s.clock - pmt < cfg.ttl then some pb else none) = some b := h
      by_cases hf : s.clock - pmt < cfg.ttl
      · refine ⟨pmt, ?_⟩
        rw [if_pos hf] at h'
        rw [Option.some.inj h']
      · rw [if_neg hf] at h'
        exact absurd h' (by simp)

/-- A successful `get` leaves the requested URL's body in the cache and
every other URL's cache entry untouched. -/
theorem get_ok_lookup (o : Oracle) (cfg : ReqConfig) (fuel : Nat) (s : ReqState)
    (url b : String) (s' : ReqState)
    (h : RateLimitedRequester.get o cfg fuel s url true = .ok b s') :
    ∃ mt, cacheLookup s'.cache url = some (b, mt)
      ∧ ∀ u2, u2 ≠ url → cacheLookup s'.cache u2 = cacheLookup s.cache u2 := by
  induction fuel generalizing s with
  | zero => exact absurd h (by simp [RateLimitedRequester.get])
  | succ n ih =>
    cases hfh : freshHit cfg s url true with
    | some body =>
      rw [get_succ_hit o cfg n s url true body hfh] at h
      obtain ⟨hb, hs⟩ : body = b ∧ s = s' := by
        have := h
        rw [GetResult.ok.injEq] at this
        exact this
      subst hb; subst hs
      obtain ⟨mt, hmt⟩ := freshHit_some_lookup cfg s url true body hfh
      exact ⟨mt, hmt, fun _ _ => rfl⟩
    | none =>
      by_cases h429 : (o.server s.nCalls url).1 = 429
      · rw [get_step_429 o cfg n s url true hfh h429] at h
        exact ih ⟨s.cache, reqFinishTime o s, reqFinishTime o s + 60, s.nCalls + 1⟩ h
      · by_cases herr : 400 ≤ (o.server s.nCalls url).1 ∧ (o.server s.nCalls url).1 < 600
        · rw [get_step_err o cfg n s url true hfh herr.1 herr.2 h429] at h
          exact absurd h (by simp)
        · rw [get_step_ok o cfg n s url true hfh h429 herr] at h
          obtain ⟨hb, hs⟩ : (o.server s.nCalls url).2 = b ∧
              (⟨(url, (o.server s.nCalls url).2, reqFinishTime o s) :: s.cache,
                reqFinishTime o s, reqFinishTime o s, s.nCalls + 1⟩ : ReqState) = s' := by
            have := h
            rw [GetResult.ok.injEq] at this
            exact this
          refine ⟨reqFinishTime o s, ?_, ?_⟩
          · rw [← hs, ← hb]
            exact if_pos rfl
          · intro u2 hu2
            rw [← hs]
            exact if_neg (fun e => hu2 e.symm)

theorem searchUrl_ne_leagueUrl (tn lid : String) : searchUrl tn ≠ leagueUrl lid := by
  intro h
  have hd := congrArg String.data h
  simp only [searchUrl, leagueUrl, FBREF_BASE_URL, String.data_append] at hd
  have h21 : (some 's' : Option Char) = some 'c' := congrArg (fun l => l.get? 21) hd
  exact absurd h21 (by decide)

theorem scopedKey_ne_bareKey (tn lid : String) : scopedKey tn lid ≠ bareKey tn := by
  intro h
  have hlen := congrArg String.length h
  simp only [scopedKey, bareKey, String.length_append] at hlen
  have h1 : (":" : String).length = 1 := rfl
  omega

/-- C9: in league-scoped resolution, the roster selection returns exactly
the first parsed team entry in document order whose listed name contains
the queried team name as a case-insensitive substring — no ranking or
disambiguation beyond this first-match rule — and `find_team_in_league`
returns that entry, caching it under the scoped key. -/
theorem roster_first_match (o : Oracle) (cfg : ReqConfig) (env : ParseEnv)
    (fuel : Nat) (ms : MapperState) (tn lid html : String) (s' : ReqState)
    (anchors : List Anchor) (info : TeamInfo)
    (hscoped : assocLookup ms.mappingCache (scopedKey tn lid) = none)
    (hget : RateLimitedRequester.get o cfg fuel ms.req (leagueUrl lid) true = .ok html s')
    (htable : env.clubsTable html = some anchors)
    (hsel : selectClub env tn anchors = some info) :
    find_team_in_league o cfg env fuel ms tn lid
      = .found info ⟨s', (scopedKey tn lid, info) :: ms.mappingCache,
          some ((scopedKey tn lid, info) :: ms.mappingCache)⟩
    ∧ ∀ as2 : List Anchor,
        selectClub env tn as2
          = ((parsedTeamEntries env as2).find? fun e => nameMatchesQuery tn e.1).map
              fun e => ⟨e.2, stripStr e.1.text, env.urljoin FBREF_BASE_URL e.1.href⟩ := by
  constructor
  · simp only [find_team_in_league, hscoped, hget, htable, hsel]
  · intro as2
    induction as2 with
    | nil => rfl
    | cons a rest ih =>
      cases hsq : env.squadId a.href with
      | some i =>
        cases hm : nameMatchesQuery tn a with
        | true => simp [selectClub, parsedTeamEntries, List.filterMap_cons, hsq, hm]
        | false =>
          simp only [selectClub, parsedTeamEntries, List.filterMap_cons, hsq, hm] at ih ⊢
          simp [hm, ih, parsedTeamEntries]
      | none =>
        cases hm : nameMatchesQuery tn a with
        | true =>
          simp only [selectClub, parsedTeamEntries, List.filterMap_cons, hsq, hm] at ih ⊢
          simp [ih, parsedTeamEntries]
        | false =>
          simp only [selectClub, parsedTeamEntries, List.filterMap_cons, hsq, hm] at ih ⊢
          simp [hm, ih, parsedTeamEntries]

theorem roster_first_match_witness :
    (assocLookup ([] : List (String × TeamInfo)) (scopedKey "Real" "9") = none
     ∧ RateLimitedRequester.get ⟨fun _ => 0, fun _ => 0, fun _ _ => (200, "page")⟩ ⟨86400⟩ 1
         ⟨[], 0, 0, 0⟩ (leagueUrl "9") true
         = .ok "page" ⟨[("https://fbref.com/en/comps/9/clubs/", "page", 0)], 0, 0, 1⟩
     ∧ selectClub
         ⟨fun _ => [],
          fun _ => some [⟨"Real Sociedad", "h1"⟩, ⟨"Real Madrid", "h2"⟩],
          fun h => if h == "h1" then some "aaa1" else some "bbb2", fun _ r => r⟩
         "Real" [⟨"Real Sociedad", "h1"⟩, ⟨"Real Madrid", "h2"⟩]
         = some ⟨"aaa1", "Real Sociedad", "h1"⟩) ∧
    (find_team_in_league ⟨fun _ => 0, fun _ => 0, fun _ _ => (200, "page")⟩ ⟨86400⟩
        ⟨fun _ => [],
         fun _ => some [⟨"Real Sociedad", "h1"⟩, ⟨"Real Madrid", "h2"⟩],
         fun h => if h == "h1" then some "aaa1" else some "bbb2", fun _ r => r⟩
        1 ⟨⟨[], 0, 0, 0⟩, [], none⟩ "Real" "9"
      = .found ⟨"aaa1", "Real Sociedad", "h1"⟩
          ⟨⟨[("https://fbref.com/en/comps/9/clubs/", "page", 0)], 0, 0, 1⟩,
           [("real:9", ⟨"aaa1", "Real Sociedad", "h1"⟩)],
           some [("real:9", ⟨"aaa1", "Real Sociedad", "h1"⟩)]⟩
     ∧ selectClub
         ⟨fun _ => [],
          fun _ => some [⟨"Real Sociedad", "h1"⟩, ⟨"Real Madrid", "h2"⟩],
          fun h => if h == "h1" then some "aaa1" else some "bbb2", fun _ r => r⟩
         "Real" [⟨"Real Sociedad", "h1"⟩, ⟨"Real Madrid", "h2"⟩]
       = ((parsedTeamEntries
             ⟨fun _ => [],
              fun _ => some [⟨"Real Sociedad", "h1"⟩, ⟨"Real Madrid", "h2"⟩],
              fun h => if h == "h1" then some "aaa1" else some "bbb2", fun _ r => r⟩
             [⟨"Real Sociedad", "h1"⟩, ⟨"Real Madrid", "h2"⟩]).find? fun e =>
               nameMatchesQuery "Real" e.1).map
           fun e => ⟨e.2, stripStr e.1.text,
             (⟨fun _ => [],
               fun _ => some [⟨"Real Sociedad", "h1"⟩, ⟨"Real Madrid", "h2"⟩],
               fun h => if h == "h1" then some "aaa1" else some "bbb2",
               fun _ r => r⟩ : ParseEnv).urljoin FBREF_BASE_URL e.1.href⟩) :=
  ⟨⟨by decide, by decide, by decide⟩,
   by
    have h := roster_first_match ⟨fun _ => 0, fun _ => 0, fun _ _ => (200, "page")⟩ ⟨86400⟩
      ⟨fun _ => [],
       fun _ => some [⟨"Real Sociedad", "h1"⟩, ⟨"Real Madrid", "h2"⟩],
       fun h => if h == "h1" then some "aaa1" else some "bbb2", fun _ r => r⟩
      1 ⟨⟨[], 0, 0, 0⟩, [], none⟩ "Real" "9" "page"
      ⟨[("https://fbref.com/en/comps/9/clubs/", "page", 0)], 0, 0, 1⟩
      [⟨"Real Sociedad", "h1"⟩, ⟨"Real Madrid", "h2"⟩] ⟨"aaa1", "Real Sociedad", "h1"⟩
      (by decide) (by decide) (by decide) (by decide)
    exact ⟨h.1, h.2 [⟨"Real Sociedad", "h1"⟩, ⟨"Real Madrid", "h2"⟩]⟩⟩

/-- C4 counterexample: with the bare team-name key cached and the scoped
key absent, league-scoped resolution does not fall back to the bare key:
it issues a network request for the league roster page (request count
goes from 0 to 1) and returns the roster entry, not the cached bare
identity. -/
theorem cache_priority_counterexample :
    assocLookup [("x", (⟨"bbb", "Bare X", "bu"⟩ : TeamInfo))] (bareKey "X")
      = some ⟨"bbb", "Bare X", "bu"⟩
    ∧ assocLookup [("x", (⟨"bbb", "Bare X", "bu"⟩ : TeamInfo))] (scopedKey "X" "9") = none
    ∧ find_team_in_league
        ⟨fun _ => 0, fun _ => 0, fun _ _ => (200, "page")⟩ ⟨86400⟩
        ⟨fun _ => [], fun _ => some [⟨"X Town", "h"⟩], fun _ => some "abc1", fun _ r => r⟩
        1
        ⟨⟨[], 0, 0, 0⟩, [("x", ⟨"bbb", "Bare X", "bu"⟩)],
         some [("x", ⟨"bbb", "Bare X", "bu"⟩)]⟩
        "X" "9"
      = .found ⟨"abc1", "X Town", "h"⟩
          ⟨⟨[("https://fbref.com/en/comps/9/clubs/", "page", 0)], 0, 0, 1⟩,
           [("x:9", ⟨"abc1", "X Town", "h"⟩), ("x", ⟨"bbb", "Bare X", "bu"⟩)],
           some [("x:9", ⟨"abc1", "X Town", "h"⟩), ("x", ⟨"bbb", "Bare X", "bu"⟩)]⟩
    ∧ (⟨"abc1", "X Town", "h"⟩ : TeamInfo) ≠ ⟨"bbb", "Bare X", "bu"⟩ :=
  ⟨by decide, by decide, by decide, by decide⟩

/-- C4 (amended): `find_team_in_league` checks the scoped key first — a
hit is returned with no state change and no requester activity; on a
scoped miss it fetches the league roster page through the requester (so
network resolution happens before the bare key is ever consulted); the
bare `team_name` key is consulted only inside the `search_team` fallback,
after the roster page yields no clubs table or no matching entry, and a
bare hit is then returned without any further requester activity. -/
theorem cache_priority_amended (o : Oracle) (cfg : ReqConfig) (env : ParseEnv)
    (fuel : Nat) (ms ms2 : MapperState) (tn lid html : String) (s' : ReqState)
    (i b : TeamInfo) (anchors : List Anchor)
    (hhit2 : assocLookup ms2.mappingCache (scopedKey tn lid) = some i)
    (hscoped : assocLookup ms.mappingCache (scopedKey tn lid) = none)
    (hget : RateLimitedRequester.get o cfg fuel ms.req (leagueUrl lid) true = .ok html s')
    (hnomatch : env.clubsTable html = none
      ∨ (env.clubsTable html = some anchors ∧ selectClub env tn anchors = none))
    (hbare : assocLookup ms.mappingCache (bareKey tn) = some b) :
    find_team_in_league o cfg env fuel ms2 tn lid = .found i ms2
    ∧ find_team_in_league o cfg env fuel ms tn lid = .found b { ms with req := s' } := by
  constructor
  · simp only [find_team_in_league, hhit2]
  · rcases hnomatch with htab | ⟨htab, hsel⟩
    · simp only [find_team_in_league, hscoped, hget, htab, search_team, hbare]
    · simp only [find_team_in_league, hscoped, hget, htab, hsel, search_team, hbare]

theorem cache_priority_amended_witness :
    (assocLookup [("x:9", (⟨"iii", "In League", "iu"⟩ : TeamInfo))] (scopedKey "X" "9")
       = some ⟨"iii", "In League", "iu"⟩
     ∧ assocLookup [("x", (⟨"bbb", "Bare X", "bu"⟩ : TeamInfo))] (scopedKey "X" "9") = none
     ∧ RateLimitedRequester.get ⟨fun _ => 0, fun _ => 0, fun _ _ => (200, "page")⟩ ⟨86400⟩ 1
         ⟨[], 0, 0, 0⟩ (leagueUrl "9") true
         = .ok "page" ⟨[("https://fbref.com/en/comps/9/clubs/", "page", 0)], 0, 0, 1⟩
     ∧ (⟨fun _ => [], fun _ => none, fun _ => none, fun _ r => r⟩ : ParseEnv).clubsTable "page"
         = none
     ∧ assocLookup [("x", (⟨"bbb", "Bare X", "bu"⟩ : TeamInfo))] (bareKey "X")
         = some ⟨"bbb", "Bare X", "bu"⟩) ∧
    (find_team_in_league ⟨fun _ => 0, fun _ => 0, fun _ _ => (200, "page")⟩ ⟨86400⟩
        ⟨fun _ => [], fun _ => none, fun _ => none, fun _ r => r⟩ 1
        ⟨⟨[], 99, 99, 7⟩, [("x:9", ⟨"iii", "In League", "iu"⟩)], none⟩ "X" "9"
      = .found ⟨"iii", "In League", "iu"⟩
          ⟨⟨[], 99, 99, 7⟩, [("x:9", ⟨"iii", "In League", "iu"⟩)], none⟩
     ∧ find_team_in_league ⟨fun _ => 0, fun _ => 0, fun _ _ => (200, "page")⟩ ⟨86400⟩
        ⟨fun _ => [], fun _ => none, fun _ => none, fun _ r => r⟩ 1
        ⟨⟨[], 0, 0, 0⟩, [("x", ⟨"bbb", "Bare X", "bu"⟩)],
         some [("x", ⟨"bbb", "Bare X", "bu"⟩)]⟩ "X" "9"
      = .found ⟨"bbb", "Bare X", "bu"⟩
          ⟨⟨[("https://fbref.com/en/comps/9/clubs/", "page", 0)], 0, 0, 1⟩,
           [("x", ⟨"bbb", "Bare X", "bu"⟩)], some [("x", ⟨"bbb", "Bare X", "bu"⟩)]⟩) :=
  ⟨⟨by decide, by decide, by decide, by decide, by decide⟩,
   cache_priority_amended ⟨fun _ => 0, fun _ => 0, fun _ _ => (200, "page")⟩ ⟨86400⟩
     ⟨fun _ => [], fun _ => none, fun _ => none, fun _ r => r⟩ 1
     ⟨⟨[], 0, 0, 0⟩, [("x", ⟨"bbb", "Bare X", "bu"⟩)], some [("x", ⟨"bbb", "Bare X", "bu"⟩)]⟩
     ⟨⟨[], 99, 99, 7⟩, [("x:9", ⟨"iii", "In League", "iu"⟩)], none⟩
     "X" "9" "page" ⟨[("https://fbref.com/en/comps/9/clubs/", "page", 0)], 0, 0, 1⟩
     ⟨"iii", "In League", "iu"⟩ ⟨"bbb", "Bare X", "bu"⟩ []
     (by decide) (by decide) (by decide) (Or.inl (by decide)) (by decide)⟩

theorem freshHit_of_lookup (cfg : ReqConfig) (s : ReqState) (url b : String) (mt : Nat)
    (hl : cacheLookup s.cache url = some (b, mt)) (hf : s.clock - mt < cfg.ttl) :
    freshHit cfg s url true = some b := by
  simp [freshHit, hl, hf]


/-- C5 counterexample: a search-fallback resolution triggered by a scoped
lookup caches the identity under the bare key only — the scoped key that
triggered the resolution stays absent — and a second resolution with the
same team name and league scope, issued once the cached league page has
expired (age 10 at TTL 10), performs a new outbound network request: the
request count rises from 2 to 3 and the resolver state changes, refuting
the unqualified "without any network call". -/
theorem resolve_recall_counterexample :
    find_team_in_league ⟨fun _ => 0, fun _ => 0, fun _ _ => (200, "page")⟩ ⟨10⟩
        ⟨fun _ => [("Teams", [⟨"X Town", "/squads/abc1/"⟩])], fun _ => some [],
         fun _ => some "abc1", fun _ r => r⟩
        1 ⟨⟨[], 0, 0, 0⟩, [], some []⟩ "X" "9"
      = .found ⟨"abc1", "X Town", "/squads/abc1/"⟩
          ⟨⟨[("https://fbref.com/en/search/search.fcgi?search=X", "page", 0),
             ("https://fbref.com/en/comps/9/clubs/", "page", 0)], 0, 0, 2⟩,
           [("x", ⟨"abc1", "X Town", "/squads/abc1/"⟩)],
           some [("x", ⟨"abc1", "X Town", "/squads/abc1/"⟩)]⟩
    ∧ assocLookup [("x", (⟨"abc1", "X Town", "/squads/abc1/"⟩ : TeamInfo))]
        (scopedKey "X" "9") = none
    ∧ find_team_in_league ⟨fun _ => 0, fun _ => 0, fun _ _ => (200, "page")⟩ ⟨10⟩
        ⟨fun _ => [("Teams", [⟨"X Town", "/squads/abc1/"⟩])], fun _ => some [],
         fun _ => some "abc1", fun _ r => r⟩
        1
        (advanceM ⟨⟨[("https://fbref.com/en/search/search.fcgi?search=X", "page", 0),
             ("https://fbref.com/en/comps/9/clubs/", "page", 0)], 0, 0, 2⟩,
           [("x", ⟨"abc1", "X Town", "/squads/abc1/"⟩)],
           some [("x", ⟨"abc1", "X Town", "/squads/abc1/"⟩)]⟩ 10) "X" "9"
      = .found ⟨"abc1", "X Town", "/squads/abc1/"⟩
          ⟨⟨[("https://fbref.com/en/comps/9/clubs/", "page", 10),
             ("https://fbref.com/en/search/search.fcgi?search=X", "page", 0),
             ("https://fbref.com/en/comps/9/clubs/", "page", 0)], 10, 10, 3⟩,
           [("x", ⟨"abc1", "X Town", "/squads/abc1/"⟩)],
           some [("x", ⟨"abc1", "X Town", "/squads/abc1/"⟩)]⟩
    ∧ (⟨⟨[("https://fbref.com/en/comps/9/clubs/", "page", 10),
          ("https://fbref.com/en/search/search.fcgi?search=X", "page", 0),
          ("https://fbref.com/en/comps/9/clubs/", "page", 0)], 10, 10, 3⟩,
        [("x", ⟨"abc1", "X Town", "/squads/abc1/"⟩)],
        some [("x", ⟨"abc1", "X Town", "/squads/abc1/"⟩)]⟩ : MapperState)
      ≠ advanceM ⟨⟨[("https://fbref.com/en/search/search.fcgi?search=X", "page", 0),
             ("https://fbref.com/en/comps/9/clubs/", "page", 0)], 0, 0, 2⟩,
           [("x", ⟨"abc1", "X Town", "/squads/abc1/"⟩)],
           some [("x", ⟨"abc1", "X Town", "/squads/abc1/"⟩)]⟩ 10 :=
  ⟨by decide, by decide, by decide, by decide⟩

/-- A successful `search_team` run, entered on behalf of a scoped
resolution whose scoped key missed, leaves the mapping cache synced to
its disk copy and stores the identity under the bare key only: the scoped
key is still absent afterwards. -/
theorem search_team_found_keys (o : Oracle) (cfg : ReqConfig) (env : ParseEnv)
    (fuel : Nat) (msf : MapperState) (sf : ReqState) (tn lid : String)
    (infoF : TeamInfo) (msf' : MapperState)
    (hsync : msf.mappingDisk = some msf.mappingCache)
    (hsc : assocLookup msf.mappingCache (scopedKey tn lid) = none)
    (hrun : search_team o cfg env (fuel + 1) { msf with req := sf } tn
      = .found infoF msf') :
    msf'.mappingDisk = some msf'.mappingCache
    ∧ assocLookup msf'.mappingCache (bareKey tn) = some infoF
    ∧ assocLookup msf'.mappingCache (scopedKey tn lid) = none := by
  cases hb : assocLookup msf.mappingCache (bareKey tn) with
  | some b0 =>
    simp only [search_team, hb] at hrun
    obtain ⟨hi, hm⟩ : b0 = infoF ∧ ({ msf with req := sf } : MapperState) = msf' := by
      rw [ResolveResult.found.injEq] at hrun; exact hrun
    subst hi; subst hm
    exact ⟨hsync, hb, hsc⟩
  | none =>
    simp only [search_team, hb] at hrun
    cases hget2 : RateLimitedRequester.get o cfg (fuel + 1) sf (searchUrl tn) true with
    | fuelOut => rw [hget2] at hrun; exact absurd hrun (by simp)
    | httpError st s2 => rw [hget2] at hrun; exact absurd hrun (by simp)
    | ok shtml s2 =>
      rw [hget2] at hrun
      cases hres : searchTeamResults env shtml with
      | nil => simp only [hres] at hrun; exact absurd hrun (by simp)
      | cons best rest =>
        simp only [hres] at hrun
        obtain ⟨hi, hm⟩ : best = infoF ∧
            (⟨s2, (bareKey tn, best) :: msf.mappingCache,
              some ((bareKey tn, best) :: msf.mappingCache)⟩ : MapperState) = msf' := by
          rw [ResolveResult.found.injEq] at hrun; exact hrun
        subst hi; subst hm
        refine ⟨rfl, by simp [assocLookup], ?_⟩
        have hne : ¬(bareKey tn = scopedKey tn lid) :=
          fun e => scopedKey_ne_bareKey tn lid e.symm
        simp only [assocLookup, if_neg hne]
        exact hsc

/-- C5 (amended): a roster-path resolution stores the resolved identity
under the scoped key — the key that triggered it — and persists the cache
to disk in the same step, and a second resolution with the same team name
and league scope returns that identity from the cache with the resolver
state completely unchanged (hence no network request), after any elapsed
time, with no freshness condition. A search-fallback resolution also
persists immediately, but stores the identity under the bare key only:
the scoped key that triggered the resolution stays absent, so a later
scoped resolve goes back through the league-page fetch (a network request
once the cached page has expired) before the bare key is reached. -/
theorem resolve_persist_amended (o : Oracle) (cfg : ReqConfig) (env : ParseEnv)
    (fuel d : Nat) (ms : MapperState) (tn lid html : String) (s1 : ReqState)
    (anchors : List Anchor) (i0 : TeamInfo)
    (msf : MapperState) (sf : ReqState) (htmlf : String) (infoF : TeamInfo)
    (msf' : MapperState)
    (hscA : assocLookup ms.mappingCache (scopedKey tn lid) = none)
    (hgetA : RateLimitedRequester.get o cfg (fuel + 1) ms.req (leagueUrl lid) true
      = .ok html s1)
    (htabA : env.clubsTable html = some anchors)
    (hselA : selectClub env tn anchors = some i0)
    (hsyncB : msf.mappingDisk = some msf.mappingCache)
    (hscB : assocLookup msf.mappingCache (scopedKey tn lid) = none)
    (hgetB : RateLimitedRequester.get o cfg (fuel + 1) msf.req (leagueUrl lid) true
      = .ok htmlf sf)
    (htabB : env.clubsTable htmlf = none
      ∨ (∃ anchorsB, env.clubsTable htmlf = some anchorsB
          ∧ selectClub env tn anchorsB = none))
    (hrunB : search_team o cfg env (fuel + 1) { msf with req := sf } tn
      = .found infoF msf') :
    (find_team_in_league o cfg env (fuel + 1) ms tn lid
       = .found i0 ⟨s1, (scopedKey tn lid, i0) :: ms.mappingCache,
           some ((scopedKey tn lid, i0) :: ms.mappingCache)⟩
     ∧ find_team_in_league o cfg env (fuel + 1)
         (advanceM ⟨s1, (scopedKey tn lid, i0) :: ms.mappingCache,
            some ((scopedKey tn lid, i0) :: ms.mappingCache)⟩ d) tn lid
       = .found i0 (advanceM ⟨s1, (scopedKey tn lid, i0) :: ms.mappingCache,
            some ((scopedKey tn lid, i0) :: ms.mappingCache)⟩ d))
    ∧ (find_team_in_league o cfg env (fuel + 1) msf tn lid = .found infoF msf'
       ∧ msf'.mappingDisk = some msf'.mappingCache
       ∧ assocLookup msf'.mappingCache (bareKey tn) = some infoF
       ∧ assocLookup msf'.mappingCache (scopedKey tn lid) = none) := by
  refine ⟨⟨?_, ?_⟩, ?_, ?_⟩
  · simp only [find_team_in_league, hscA, hgetA, htabA, hselA]
  · have hhead : assocLookup ((scopedKey tn lid, i0) :: ms.mappingCache)
        (scopedKey tn lid) = some i0 := by simp [assocLookup]
    simp only [find_team_in_league, advanceM, hhead]
  · rcases htabB with htab | ⟨anchorsB, htab, hsel⟩
    · simp only [find_team_in_league, hscB, hgetB, htab]
      exact hrunB
    · simp only [find_team_in_league, hscB, hgetB, htab, hsel]
      exact hrunB
  · exact search_team_found_keys o cfg env fuel msf sf tn lid infoF msf' hsyncB hscB hrunB

theorem resolve_persist_amended_witness :
    (assocLookup ([] : List (String × TeamInfo)) (scopedKey "X" "9") = none
     ∧ RateLimitedRequester.get
         ⟨fun _ => 0, fun _ => 0, fun k _ => (200, if k == 0 then "pageA" else "pageB")⟩
         ⟨10⟩ 1 ⟨[], 0, 0, 0⟩ (leagueUrl "9") true
         = .ok "pageA" ⟨[("https://fbref.com/en/comps/9/clubs/", "pageA", 0)], 0, 0, 1⟩
     ∧ selectClub
         ⟨fun _ => [("Teams", [⟨"X Town", "/squads/abc1/"⟩])],
          fun h => if h == "pageA" then some [⟨"X Town", "ha"⟩] else some [],
          fun _ => some "abc1", fun _ r => r⟩ "X" [⟨"X Town", "ha"⟩]
         = some ⟨"abc1", "X Town", "ha"⟩
     ∧ RateLimitedRequester.get
         ⟨fun _ => 0, fun _ => 0, fun k _ => (200, if k == 0 then "pageA" else "pageB")⟩
         ⟨10⟩ 1 ⟨[], 0, 0, 1⟩ (leagueUrl "9") true
         = .ok "pageB" ⟨[("https://fbref.com/en/comps/9/clubs/", "pageB", 0)], 0, 0, 2⟩
     ∧ search_team
         ⟨fun _ => 0, fun _ => 0, fun k _ => (200, if k == 0 then "pageA" else "pageB")⟩
         ⟨10⟩
         ⟨fun _ => [("Teams", [⟨"X Town", "/squads/abc1/"⟩])],
          fun h => if h == "pageA" then some [⟨"X Town", "ha"⟩] else some [],
          fun _ => some "abc1", fun _ r => r⟩ 1
         ⟨⟨[("https://fbref.com/en/comps/9/clubs/", "pageB", 0)], 0, 0, 2⟩, [], some []⟩ "X"
         = .found ⟨"abc1", "X Town", "/squads/abc1/"⟩
             ⟨⟨[("https://fbref.com/en/search/search.fcgi?search=X", "pageB", 0),
                ("https://fbref.com/en/comps/9/clubs/", "pageB", 0)], 0, 0, 3⟩,
              [("x", ⟨"abc1", "X Town", "/squads/abc1/"⟩)],
              some [("x", ⟨"abc1", "X Town", "/squads/abc1/"⟩)]⟩) ∧
    ((find_team_in_league
         ⟨fun _ => 0, fun _ => 0, fun k _ => (200, if k == 0 then "pageA" else "pageB")⟩
         ⟨10⟩
         ⟨fun _ => [("Teams", [⟨"X Town", "/squads/abc1/"⟩])],
          fun h => if h == "pageA" then some [⟨"X Town", "ha"⟩] else some [],
          fun _ => some "abc1", fun _ r => r⟩ 1 ⟨⟨[], 0, 0, 0⟩, [], none⟩ "X" "9"
       = .found ⟨"abc1", "X Town", "ha"⟩
           ⟨⟨[("https://fbref.com/en/comps/9/clubs/", "pageA", 0)], 0, 0, 1⟩,
            [("x:9", ⟨"abc1", "X Town", "ha"⟩)], some [("x:9", ⟨"abc1", "X Town", "ha"⟩)]⟩
      ∧ find_team_in_league
         ⟨fun _ => 0, fun _ => 0, fun k _ => (200, if k == 0 then "pageA" else "pageB")⟩
         ⟨10⟩
         ⟨fun _ => [("Teams", [⟨"X Town", "/squads/abc1/"⟩])],
          fun h => if h == "pageA" then some [⟨"X Town", "ha"⟩] else some [],
          fun _ => some "abc1", fun _ r => r⟩ 1
         (advanceM ⟨⟨[("https://fbref.com/en/comps/9/clubs/", "pageA", 0)], 0, 0, 1⟩,
            [("x:9", ⟨"abc1", "X Town", "ha"⟩)],
            some [("x:9", ⟨"abc1", "X Town", "ha"⟩)]⟩ 7) "X" "9"
       = .found ⟨"abc1", "X Town", "ha"⟩
           (advanceM ⟨⟨[("https://fbref.com/en/comps/9/clubs/", "pageA", 0)], 0, 0, 1⟩,
              [("x:9", ⟨"abc1", "X Town", "ha"⟩)],
              some [("x:9", ⟨"abc1", "X Town", "ha"⟩)]⟩ 7))
     ∧ (find_team_in_league
         ⟨fun _ => 0, fun _ => 0, fun k _ => (200, if k == 0 then "pageA" else "pageB")⟩
         ⟨10⟩
         ⟨fun _ => [("Teams", [⟨"X Town", "/squads/abc1/"⟩])],
          fun h => if h == "pageA" then some [⟨"X Town", "ha"⟩] else some [],
          fun _ => some "abc1", fun _ r => r⟩ 1 ⟨⟨[], 0, 0, 1⟩, [], some []⟩ "X" "9"
        = .found ⟨"abc1", "X Town", "/squads/abc1/"⟩
            ⟨⟨[("https://fbref.com/en/search/search.fcgi?search=X", "pageB", 0),
               ("https://fbref.com/en/comps/9/clubs/", "pageB", 0)], 0, 0, 3⟩,
             [("x", ⟨"abc1", "X Town", "/squads/abc1/"⟩)],
             some [("x", ⟨"abc1", "X Town", "/squads/abc1/"⟩)]⟩
       ∧ (some [("x", (⟨"abc1", "X Town", "/squads/abc1/"⟩ : TeamInfo))] :
            Option (List (String × TeamInfo)))
          = some [("x", ⟨"abc1", "X Town", "/squads/abc1/"⟩)]
       ∧ assocLookup [("x", (⟨"abc1", "X Town", "/squads/abc1/"⟩ : TeamInfo))] (bareKey "X")
          = some ⟨"abc1", "X Town", "/squads/abc1/"⟩
       ∧ assocLookup [("x", (⟨"abc1", "X Town", "/squads/abc1/"⟩ : TeamInfo))]
          (scopedKey "X" "9") = none)) :=
  ⟨⟨by decide, by decide, by decide, by decide, by decide⟩,
   resolve_persist_amended
     ⟨fun _ => 0, fun _ => 0, fun k _ => (200, if k == 0 then "pageA" else "pageB")⟩ ⟨10⟩
     ⟨fun _ => [("Teams", [⟨"X Town", "/squads/abc1/"⟩])],
      fun h => if h == "pageA" then some [⟨"X Town", "ha"⟩] else some [],
      fun _ => some "abc1", fun _ r => r⟩
     0 7 ⟨⟨[], 0, 0, 0⟩, [], none⟩ "X" "9" "pageA"
     ⟨[("https://fbref.com/en/comps/9/clubs/", "pageA", 0)], 0, 0, 1⟩
     [⟨"X Town", "ha"⟩] ⟨"abc1", "X Town", "ha"⟩
     ⟨⟨[], 0, 0, 1⟩, [], some []⟩
     ⟨[("https://fbref.com/en/comps/9/clubs/", "pageB", 0)], 0, 0, 2⟩ "pageB"
     ⟨"abc1", "X Town", "/squads/abc1/"⟩
     ⟨⟨[("https://fbref.com/en/search/search.fcgi?search=X", "pageB", 0),
        ("https://fbref.com/en/comps/9/clubs/", "pageB", 0)], 0, 0, 3⟩,
      [("x", ⟨"abc1", "X Town", "/squads/abc1/"⟩)],
      some [("x", ⟨"abc1", "X Town", "/squads/abc1/"⟩)]⟩
     (by decide) (by decide) (by decide) (by decide) (by decide) (by decide) (by decide)
     (Or.inr ⟨[], by decide, by decide⟩) (by decide)⟩
